import Mathlib

/-!
Shallow embedding of the PostgreSQL container backup script (`main.py`,
class `PostgresBackup`) and proofs of its specified properties.

The script's interaction with the outside world (external commands run via
`subprocess`, `os.makedirs`, `Path.unlink`, the two clocks `datetime.now`
and `time.time`) is modelled by an environment `Env` of oracles, and the
observable side effects (directories created, files in the backup
directory, commands dispatched to `subprocess.run`, log lines emitted) by
a state `St` threaded through the operations.  Python exceptions are
modelled by `Except` where they escape (the constructor) and by explicit
control flow where the source catches them (`backupDatabase`,
`cleanupOldBackups`, `run` all contain their errors).
-/

namespace PostgresBackup

/-- A file in the backup directory: its name (as seen by `Path.glob`) and
its modification time `st_mtime`. -/
structure FileEntry where
  name : String
  mtime : Int
  deriving DecidableEq

/-- The constructor arguments of `PostgresBackup.__init__`. -/
structure Config where
  container_name : String
  postgres_user : String
  backup_dir : String
  databases : List String
  retention_days : Nat
  deriving DecidableEq

/-- Oracles for the outside world: `exec_ok c` is whether external command
`c` exits with status 0; `makedirs_ok d` whether creating directory `d`
succeeds; `unlink_ok f` whether deleting file `f` succeeds; `date_fn k`
the `datetime.now().strftime("%Y%m%d_%H%M%S")` string at clock event `k`;
`time_fn k` the `time.time()` value at clock event `k`. -/
structure Env where
  exec_ok : List String → Bool
  makedirs_ok : String → Bool
  unlink_ok : String → Bool
  date_fn : Nat → String
  time_fn : Nat → Int

/-- One line written to the `db_backup` logger, abstracted to its kind and
payload (the concrete message strings of the source differ between the
constructors, so no information is lost). -/
inductive LogEntry where
  | startMsg (dryRun : Bool)
  | dryCmd (cmd : List String)
  | execCmd (cmd : List String)
  | cmdFailed (cmd : List String)
  | backupDone (db : String) (dryRun : Bool)
  | backupFailed (db : String)
  | dryDelete (file : String)
  | deleted (file : String)
  | cleanupFailed
  | doneMsg (dryRun : Bool)
  | runFailed
  deriving DecidableEq

/-- The observable state: a clock-event counter (each call to
`datetime.now` / `time.time` consumes one event), the set of existing
directories, the files in the backup directory, the commands actually
handed to `subprocess.run`, and the log. -/
structure St where
  clock : Nat
  dirs : List String
  files : List FileEntry
  dispatched : List (List String)
  log : List LogEntry
  deriving DecidableEq

/-- `os.makedirs(d, exist_ok=True)`: succeeds silently when `d` exists,
otherwise creates it when the filesystem permits, otherwise raises. -/
def makedirs (env : Env) (d : String) (st : St) : Except Unit St :=
  if d ∈ st.dirs then Except.ok st
  else if env.makedirs_ok d then Except.ok { st with dirs := st.dirs ++ [d] }
  else Except.error ()

/-- `os.path.dirname`. -/
def dirname (p : String) : String :=
  String.intercalate "/" (p.splitOn "/").dropLast

/-- `os.path.join(self.backup_dir, "backup.log")`. -/
def logFilePath (cfg : Config) : String :=
  cfg.backup_dir ++ "/backup.log"

/-- `PostgresBackup.__init__`: stores the configuration and runs
`os.makedirs` on the backup directory and on the log file's directory,
with no surrounding try/except — a failure propagates to the caller. -/
def initBackup (env : Env) (cfg : Config) (st : St) : Except Unit St :=
  match makedirs env cfg.backup_dir st with
  | Except.error e => Except.error e
  | Except.ok st1 => makedirs env (dirname (logFilePath cfg)) st1

/-- `PostgresBackup.run_cmd`: in dry-run mode only a `[DRY RUN]` line is
logged and nothing is dispatched; otherwise the command is logged,
dispatched, and a non-zero exit is logged and re-raised (the `false` in
the returned pair). -/
def runCmd (env : Env) (cmd : List String) (dryRun : Bool) (st : St) : St × Bool :=
  if dryRun then
    ({ st with log := st.log ++ [LogEntry.dryCmd cmd] }, true)
  else
    let st1 : St := { st with log := st.log ++ [LogEntry.execCmd cmd],
                              dispatched := st.dispatched ++ [cmd] }
    if env.exec_ok cmd then (st1, true)
    else ({ st1 with log := st1.log ++ [LogEntry.cmdFailed cmd] }, false)

/-- `f"{db_name}_{date_str}.dump"` with the timestamp of clock event `k`. -/
def backupFilename (env : Env) (db : String) (k : Nat) : String :=
  db ++ "_" ++ env.date_fn k ++ ".dump"

/-- `f"/tmp/{backup_filename}"`. -/
def containerPath (env : Env) (db : String) (k : Nat) : String :=
  "/tmp/" ++ backupFilename env db k

/-- `os.path.join(self.backup_dir, backup_filename)`. -/
def localPath (env : Env) (cfg : Config) (db : String) (k : Nat) : String :=
  cfg.backup_dir ++ "/" ++ backupFilename env db k

/-- The `pg_dump` command of `backup_database`. -/
def dumpCmd (env : Env) (cfg : Config) (db : String) (k : Nat) : List String :=
  ["docker", "exec", cfg.container_name, "pg_dump", "-U", cfg.postgres_user,
   "-d", db, "-F", "c", "-f", containerPath env db k]

/-- The `docker cp` command of `backup_database` (fetches the dump to the
host). -/
def cpCmd (env : Env) (cfg : Config) (db : String) (k : Nat) : List String :=
  ["docker", "cp", cfg.container_name ++ ":" ++ containerPath env db k,
   localPath env cfg db k]

/-- The in-container `rm` command of `backup_database` (remote cleanup). -/
def rmCmd (env : Env) (cfg : Config) (db : String) (k : Nat) : List String :=
  ["docker", "exec", cfg.container_name, "rm", containerPath env db k]

/-- `PostgresBackup.backup_database`: takes the timestamp, then runs the
dump, fetch and remote-cleanup commands in order through `runCmd`; the
first failing command raises, the surrounding `except` logs the failure
and returns.  A successful fetch creates the local dump file. -/
def backupDatabase (env : Env) (cfg : Config) (db : String) (dryRun : Bool) (st : St) : St :=
  let k := st.clock
  let st0 : St := { st with clock := st.clock + 1 }
  let r1 := runCmd env (dumpCmd env cfg db k) dryRun st0
  if r1.2 then
    let r2 := runCmd env (cpCmd env cfg db k) dryRun r1.1
    if r2.2 then
      let stf : St :=
        if dryRun then r2.1
        else { r2.1 with files := r2.1.files ++ [⟨backupFilename env db k, env.time_fn k⟩] }
      let r3 := runCmd env (rmCmd env cfg db k) dryRun stf
      if r3.2 then { r3.1 with log := r3.1.log ++ [LogEntry.backupDone db dryRun] }
      else { r3.1 with log := r3.1.log ++ [LogEntry.backupFailed db] }
    else { r2.1 with log := r2.1.log ++ [LogEntry.backupFailed db] }
  else { r1.1 with log := r1.1.log ++ [LogEntry.backupFailed db] }

/-- `Path(...).glob("*.dump")` selects a file: its name ends with the
suffix `.dump`. -/
def matchesDumpGlob (s : String) : Bool :=
  ".dump".data.isSuffixOf s.data

/-- A file both matches the `*.dump` glob and is strictly older than
`max_age` (`current_time - file.stat().st_mtime > max_age`). -/
def isExpiredDump (now maxAge : Int) (f : FileEntry) : Bool :=
  matchesDumpGlob f.name && decide (now - f.mtime > maxAge)

/-- The `for file in Path(...).glob("*.dump")` loop of
`cleanup_old_backups`, over a snapshot of the directory listing.  Returns
the files remaining and the log lines emitted.  A failing `unlink` raises
out of the loop; the function-level `except` logs it and the remaining
files are never visited. -/
def cleanupFiles (env : Env) (dryRun : Bool) (now maxAge : Int) :
    List FileEntry → List FileEntry × List LogEntry
  | [] => ([], [])
  | f :: rest =>
    if isExpiredDump now maxAge f then
      if dryRun then
        let r := cleanupFiles env dryRun now maxAge rest
        (f :: r.1, LogEntry.dryDelete f.name :: r.2)
      else if env.unlink_ok f.name then
        let r := cleanupFiles env dryRun now maxAge rest
        (r.1, LogEntry.deleted f.name :: r.2)
      else
        (f :: rest, [LogEntry.cleanupFailed])
    else
      let r := cleanupFiles env dryRun now maxAge rest
      (f :: r.1, r.2)

/-- `PostgresBackup.cleanup_old_backups`: computes
`max_age = retention_days * 24 * 60 * 60`, reads `time.time()`, and scans
the `*.dump` files, deleting (or in dry-run only logging) those strictly
older than `max_age`. -/
def cleanupOldBackups (env : Env) (cfg : Config) (dryRun : Bool) (st : St) : St :=
  let maxAge : Int := (cfg.retention_days : Int) * 24 * 60 * 60
  let now := env.time_fn st.clock
  let r := cleanupFiles env dryRun now maxAge st.files
  { st with clock := st.clock + 1, files := r.1, log := st.log ++ r.2 }

/-- The `for db in self.databases` loop of `run`. -/
def runBackups (env : Env) (cfg : Config) (dryRun : Bool) (dbs : List String) (st : St) : St :=
  dbs.foldl (fun s db => backupDatabase env cfg db dryRun s) st

/-- `PostgresBackup.run`: logs the start line, then inside its try block
creates the backup directory, backs up each database, cleans old backups
and returns `true`; an exception reaching the try block (in this model
only `os.makedirs` can raise there, `backupDatabase` and
`cleanupOldBackups` contain their own errors) is logged and `false` is
returned. -/
def run (env : Env) (cfg : Config) (dryRun : Bool) (st : St) : St × Bool :=
  let st0 : St := { st with log := st.log ++ [LogEntry.startMsg dryRun] }
  match makedirs env cfg.backup_dir st0 with
  | Except.error _ => ({ st0 with log := st0.log ++ [LogEntry.runFailed] }, false)
  | Except.ok st1 =>
    let st2 := runBackups env cfg dryRun cfg.databases st1
    let st3 := cleanupOldBackups env cfg dryRun st2
    ({ st3 with log := st3.log ++ [LogEntry.doneMsg dryRun] }, true)

/-- Directory creation in `run` succeeds: the directory already exists or
the filesystem lets `os.makedirs` create it. -/
def dirCreationOk (env : Env) (cfg : Config) (st : St) : Prop :=
  cfg.backup_dir ∈ st.dirs ∨ env.makedirs_ok cfg.backup_dir = true

instance (env : Env) (cfg : Config) (st : St) : Decidable (dirCreationOk env cfg st) := by
  unfold dirCreationOk
  infer_instance

/-- Recognizes the `pg_dump` command shape among dispatched commands. -/
def isDumpInvocation (c : List String) : Bool :=
  c.length == 12 && (c.get? 3 == some "pg_dump")

/-- The number of `pg_dump` invocations among the dispatched commands. -/
def dumpDispatchCount (l : List (List String)) : Nat :=
  (l.filter isDumpInvocation).length

lemma isDumpInvocation_dumpCmd (env : Env) (cfg : Config) (db : String) (k : Nat) :
    isDumpInvocation (dumpCmd env cfg db k) = true := by
  simp [isDumpInvocation, dumpCmd]

lemma isDumpInvocation_cpCmd (env : Env) (cfg : Config) (db : String) (k : Nat) :
    isDumpInvocation (cpCmd env cfg db k) = false := by
  simp [isDumpInvocation, cpCmd]

lemma isDumpInvocation_rmCmd (env : Env) (cfg : Config) (db : String) (k : Nat) :
    isDumpInvocation (rmCmd env cfg db k) = false := by
  simp [isDumpInvocation, rmCmd]

lemma dumpDispatchCount_append (l m : List (List String)) :
    dumpDispatchCount (l ++ m) = dumpDispatchCount l + dumpDispatchCount m := by
  simp [dumpDispatchCount, List.filter_append]

/-! ### Branch-by-branch characterization of `backupDatabase` -/

lemma backupDatabase_dry (env : Env) (cfg : Config) (db : String) (st : St) :
    backupDatabase env cfg db true st =
      { st with clock := st.clock + 1,
                log := st.log ++ [LogEntry.dryCmd (dumpCmd env cfg db st.clock),
                                  LogEntry.dryCmd (cpCmd env cfg db st.clock),
                                  LogEntry.dryCmd (rmCmd env cfg db st.clock),
                                  LogEntry.backupDone db true] } := by
  simp [backupDatabase, runCmd]

lemma backupDatabase_dump_fail (env : Env) (cfg : Config) (db : String) (st : St)
    (h1 : env.exec_ok (dumpCmd env cfg db st.clock) = false) :
    backupDatabase env cfg db false st =
      { st with clock := st.clock + 1,
                dispatched := st.dispatched ++ [dumpCmd env cfg db st.clock],
                log := st.log ++ [LogEntry.execCmd (dumpCmd env cfg db st.clock),
                                  LogEntry.cmdFailed (dumpCmd env cfg db st.clock),
                                  LogEntry.backupFailed db] } := by
  simp [backupDatabase, runCmd, h1]

lemma backupDatabase_cp_fail (env : Env) (cfg : Config) (db : String) (st : St)
    (h1 : env.exec_ok (dumpCmd env cfg db st.clock) = true)
    (h2 : env.exec_ok (cpCmd env cfg db st.clock) = false) :
    backupDatabase env cfg db false st =
      { st with clock := st.clock + 1,
                dispatched := st.dispatched ++ [dumpCmd env cfg db st.clock,
                                                cpCmd env cfg db st.clock],
                log := st.log ++ [LogEntry.execCmd (dumpCmd env cfg db st.clock),
                                  LogEntry.execCmd (cpCmd env cfg db st.clock),
                                  LogEntry.cmdFailed (cpCmd env cfg db st.clock),
                                  LogEntry.backupFailed db] } := by
  simp [backupDatabase, runCmd, h1, h2]

lemma backupDatabase_rm_fail (env : Env) (cfg : Config) (db : String) (st : St)
    (h1 : env.exec_ok (dumpCmd env cfg db st.clock) = true)
    (h2 : env.exec_ok (cpCmd env cfg db st.clock) = true)
    (h3 : env.exec_ok (rmCmd env cfg db st.clock) = false) :
    backupDatabase env cfg db false st =
      { st with clock := st.clock + 1,
                files := st.files ++ [⟨backupFilename env db st.clock, env.time_fn st.clock⟩],
                dispatched := st.dispatched ++ [dumpCmd env cfg db st.clock,
                                                cpCmd env cfg db st.clock,
                                                rmCmd env cfg db st.clock],
                log := st.log ++ [LogEntry.execCmd (dumpCmd env cfg db st.clock),
                                  LogEntry.execCmd (cpCmd env cfg db st.clock),
                                  LogEntry.execCmd (rmCmd env cfg db st.clock),
                                  LogEntry.cmdFailed (rmCmd env cfg db st.clock),
                                  LogEntry.backupFailed db] } := by
  simp [backupDatabase, runCmd, h1, h2, h3]

lemma backupDatabase_all_ok (env : Env) (cfg : Config) (db : String) (st : St)
    (h1 : env.exec_ok (dumpCmd env cfg db st.clock) = true)
    (h2 : env.exec_ok (cpCmd env cfg db st.clock) = true)
    (h3 : env.exec_ok (rmCmd env cfg db st.clock) = true) :
    backupDatabase env cfg db false st =
      { st with clock := st.clock + 1,
                files := st.files ++ [⟨backupFilename env db st.clock, env.time_fn st.clock⟩],
                dispatched := st.dispatched ++ [dumpCmd env cfg db st.clock,
                                                cpCmd env cfg db st.clock,
                                                rmCmd env cfg db st.clock],
                log := st.log ++ [LogEntry.execCmd (dumpCmd env cfg db st.clock),
                                  LogEntry.execCmd (cpCmd env cfg db st.clock),
                                  LogEntry.execCmd (rmCmd env cfg db st.clock),
                                  LogEntry.backupDone db false] } := by
  simp [backupDatabase, runCmd, h1, h2, h3]

/-- `backupDatabase` always advances the clock by one, never touches the
directory set, and adds exactly one `pg_dump` invocation to the dispatch
record in a real run (none in a dry run). -/
lemma backupDatabase_invariants (env : Env) (cfg : Config) (db : String) (d : Bool) (st : St) :
    (backupDatabase env cfg db d st).clock = st.clock + 1 ∧
    (backupDatabase env cfg db d st).dirs = st.dirs ∧
    dumpDispatchCount (backupDatabase env cfg db d st).dispatched
      = dumpDispatchCount st.dispatched + (if d then 0 else 1) := by
  cases d with
  | true => simp [backupDatabase_dry]
  | false =>
    rcases h1 : env.exec_ok (dumpCmd env cfg db st.clock) with _ | _
    · simp [backupDatabase_dump_fail env cfg db st h1, dumpDispatchCount_append,
            dumpDispatchCount, isDumpInvocation_dumpCmd]
    · rcases h2 : env.exec_ok (cpCmd env cfg db st.clock) with _ | _
      · simp [backupDatabase_cp_fail env cfg db st h1 h2, dumpDispatchCount_append,
              dumpDispatchCount, isDumpInvocation_dumpCmd, isDumpInvocation_cpCmd]
      · rcases h3 : env.exec_ok (rmCmd env cfg db st.clock) with _ | _
        · simp [backupDatabase_rm_fail env cfg db st h1 h2 h3, dumpDispatchCount_append,
                dumpDispatchCount, isDumpInvocation_dumpCmd, isDumpInvocation_cpCmd,
                isDumpInvocation_rmCmd]
        · simp [backupDatabase_all_ok env cfg db st h1 h2 h3, dumpDispatchCount_append,
                dumpDispatchCount, isDumpInvocation_dumpCmd, isDumpInvocation_cpCmd,
                isDumpInvocation_rmCmd]

/-- C1: the boolean returned by `run` depends only on whether the
`os.makedirs` call inside its try block succeeds; it is `true` for every
behavior of the external commands — in particular also when every single
database backup failed — and `false` exactly when directory creation
raises into `run`'s own try block. -/
theorem run_result_iff_dir_creation (env : Env) (cfg : Config) (d : Bool) (st : St) :
    (run env cfg d st).2 = true ↔ dirCreationOk env cfg st := by
  unfold run makedirs dirCreationOk
  by_cases h1 : cfg.backup_dir ∈ st.dirs
  · simp [h1]
  · by_cases h2 : env.makedirs_ok cfg.backup_dir = true
    · simp [h1, h2]
    · simp [h1, h2]

lemma runBackups_nil (env : Env) (cfg : Config) (d : Bool) (st : St) :
    runBackups env cfg d [] st = st := rfl

lemma runBackups_cons (env : Env) (cfg : Config) (d : Bool) (db : String)
    (rest : List String) (st : St) :
    runBackups env cfg d (db :: rest) st
      = runBackups env cfg d rest (backupDatabase env cfg db d st) := rfl

lemma cleanupOldBackups_dispatched (env : Env) (cfg : Config) (d : Bool) (st : St) :
    (cleanupOldBackups env cfg d st).dispatched = st.dispatched := rfl

lemma cleanupOldBackups_dirs (env : Env) (cfg : Config) (d : Bool) (st : St) :
    (cleanupOldBackups env cfg d st).dirs = st.dirs := rfl

/-- In a real run, the database loop adds exactly one `pg_dump` invocation
per configured database, whatever the outcomes of the individual
commands: every database is attempted. -/
lemma runBackups_dump_count (env : Env) (cfg : Config) :
    ∀ (dbs : List String) (st : St),
      dumpDispatchCount (runBackups env cfg false dbs st).dispatched
        = dumpDispatchCount st.dispatched + dbs.length := by
  intro dbs
  induction dbs with
  | nil => intro st; simp [runBackups_nil]
  | cons db rest ih =>
    intro st
    have h := (backupDatabase_invariants env cfg db false st).2.2
    rw [runBackups_cons, ih, h]
    simp
    omega

/-- In a real run with directory creation succeeding, the dispatch record
gains exactly one `pg_dump` invocation per configured database. -/
lemma run_dump_count (env : Env) (cfg : Config) (st : St) (hdir : dirCreationOk env cfg st) :
    dumpDispatchCount (run env cfg false st).1.dispatched
      = dumpDispatchCount st.dispatched + cfg.databases.length := by
  unfold run makedirs
  rcases hdir with h1 | h2
  · simp [h1, cleanupOldBackups_dispatched, runBackups_dump_count]
  · by_cases h1 : cfg.backup_dir ∈ st.dirs
    · simp [h1, cleanupOldBackups_dispatched, runBackups_dump_count]
    · simp [h1, h2, cleanupOldBackups_dispatched, runBackups_dump_count]

/-- C2: if the dump command for a database exits non-zero, the fetch and
remote-cleanup commands for it are never dispatched, no local dump file
is created, the failure is logged, and the run still attempts (dispatches
a dump for) every configured database. -/
theorem dump_failure_skips_fetch_and_continues (env : Env) (cfg : Config) (db : String) (st : St)
    (h : env.exec_ok (dumpCmd env cfg db st.clock) = false) :
    (backupDatabase env cfg db false st).files = st.files ∧
    (backupDatabase env cfg db false st).dispatched
      = st.dispatched ++ [dumpCmd env cfg db st.clock] ∧
    LogEntry.backupFailed db ∈ (backupDatabase env cfg db false st).log ∧
    (∀ st2 : St, dirCreationOk env cfg st2 →
      dumpDispatchCount (run env cfg false st2).1.dispatched
        = dumpDispatchCount st2.dispatched + cfg.databases.length) := by
  rw [backupDatabase_dump_fail env cfg db st h]
  refine ⟨rfl, rfl, by simp, ?_⟩
  intro st2 hdir
  exact run_dump_count env cfg st2 hdir

/-- An environment in which every external command fails. -/
def envAllFail : Env :=
  { exec_ok := fun _ => false
    makedirs_ok := fun _ => true
    unlink_ok := fun _ => true
    date_fn := fun _ => "20250101_000000"
    time_fn := fun _ => 0 }

/-- A sample two-database configuration. -/
def cfgSample : Config :=
  { container_name := "postgis"
    postgres_user := "postgres"
    backup_dir := "/opt/backup"
    databases := ["alpha", "beta"]
    retention_days := 7 }

/-- The empty starting state. -/
def stEmpty : St :=
  { clock := 0, dirs := [], files := [], dispatched := [], log := [] }

/-- Witness for C2 at a concrete input: in `envAllFail` the dump of
`alpha` fails, no file appears and only the dump command is dispatched. -/
theorem dump_failure_skips_fetch_and_continues_witness :
    envAllFail.exec_ok (dumpCmd envAllFail cfgSample "alpha" stEmpty.clock) = false ∧
    (backupDatabase envAllFail cfgSample "alpha" false stEmpty).files = stEmpty.files ∧
    (backupDatabase envAllFail cfgSample "alpha" false stEmpty).dispatched
      = stEmpty.dispatched ++ [dumpCmd envAllFail cfgSample "alpha" stEmpty.clock] :=
  ⟨rfl,
   (dump_failure_skips_fetch_and_continues envAllFail cfgSample "alpha" stEmpty rfl).1,
   (dump_failure_skips_fetch_and_continues envAllFail cfgSample "alpha" stEmpty rfl).2.1⟩

/-! ### Behavior of the retention scan -/

lemma cleanupFiles_dry (env : Env) (now maxAge : Int) :
    ∀ l : List FileEntry, (cleanupFiles env true now maxAge l).1 = l := by
  intro l
  induction l with
  | nil => rfl
  | cons f rest ih =>
    cases h : isExpiredDump now maxAge f with
    | false => simp [cleanupFiles, h, ih]
    | true => simp [cleanupFiles, h, ih]

lemma cleanupFiles_all_ok (env : Env) (now maxAge : Int) :
    ∀ l : List FileEntry, (∀ g ∈ l, env.unlink_ok g.name = true) →
      (cleanupFiles env false now maxAge l).1
        = l.filter (fun g => !isExpiredDump now maxAge g) := by
  intro l
  induction l with
  | nil => intro _; rfl
  | cons f rest ih =>
    intro hall
    have hf := hall f (List.mem_cons_self f rest)
    have hrest : ∀ g ∈ rest, env.unlink_ok g.name = true :=
      fun g hg => hall g (List.mem_cons_of_mem f hg)
    cases h : isExpiredDump now maxAge f with
    | false => simp [cleanupFiles, h, ih hrest, List.filter_cons]
    | true => simp [cleanupFiles, h, hf, ih hrest, List.filter_cons]

lemma cleanupFiles_no_expired (env : Env) (now maxAge : Int) :
    ∀ l : List FileEntry, (∀ g ∈ l, isExpiredDump now maxAge g = false) →
      cleanupFiles env false now maxAge l = (l, []) := by
  intro l
  induction l with
  | nil => intro _; rfl
  | cons f rest ih =>
    intro hall
    have hf := hall f (List.mem_cons_self f rest)
    have hrest : ∀ g ∈ rest, isExpiredDump now maxAge g = false :=
      fun g hg => hall g (List.mem_cons_of_mem f hg)
    simp [cleanupFiles, hf, ih hrest]

lemma cleanupFiles_non_dump (env : Env) (d : Bool) (now maxAge : Int) :
    ∀ l : List FileEntry,
      (cleanupFiles env d now maxAge l).1.filter (fun g => !matchesDumpGlob g.name)
        = l.filter (fun g => !matchesDumpGlob g.name) := by
  intro l
  induction l with
  | nil => rfl
  | cons f rest ih =>
    cases h : isExpiredDump now maxAge f with
    | false => simp [cleanupFiles, h, List.filter_cons, ih]
    | true =>
      have hdump : matchesDumpGlob f.name = true := by
        have := h
        unfold isExpiredDump at this
        exact (Bool.and_eq_true _ _ |>.mp this).1
      cases d with
      | true => simp [cleanupFiles, h, List.filter_cons, hdump, ih]
      | false =>
        cases hu : env.unlink_ok f.name with
        | true => simp [cleanupFiles, h, hu, List.filter_cons, hdump, ih]
        | false => simp [cleanupFiles, h, hu]

lemma cleanupOldBackups_files (env : Env) (cfg : Config) (d : Bool) (st : St) :
    (cleanupOldBackups env cfg d st).files
      = (cleanupFiles env d (env.time_fn st.clock)
          ((cfg.retention_days : Int) * 24 * 60 * 60) st.files).1 := rfl

lemma retention_seconds (cfg : Config) :
    (cfg.retention_days : Int) * 24 * 60 * 60 = (cfg.retention_days : Int) * 86400 := by
  ring

/-- C3: the retention scan uses a strict greater-than comparison.  When
every deletion succeeds, a file of the backup directory is gone after a
real run exactly when it matches `*.dump` and its age strictly exceeds
`retention_days * 86400` seconds; a file exactly at the boundary stays,
and a dry run deletes nothing whatever the ages. -/
theorem cleanup_retention_strict_gt (env : Env) (cfg : Config) (st : St) (f : FileEntry)
    (hall : ∀ g ∈ st.files, env.unlink_ok g.name = true)
    (hf : f ∈ st.files) :
    (f ∉ (cleanupOldBackups env cfg false st).files ↔
      (matchesDumpGlob f.name = true ∧
        env.time_fn st.clock - f.mtime > (cfg.retention_days : Int) * 86400)) ∧
    (cleanupOldBackups env cfg true st).files = st.files := by
  constructor
  · rw [cleanupOldBackups_files, cleanupFiles_all_ok env _ _ st.files hall,
        retention_seconds]
    simp [List.mem_filter, hf, isExpiredDump]
    intro _
    omega
  · rw [cleanupOldBackups_files, cleanupFiles_dry]

/-- An environment where every filesystem and command operation succeeds
and the clock is frozen at 1000000. -/
def envAllOk : Env :=
  { exec_ok := fun _ => true
    makedirs_ok := fun _ => true
    unlink_ok := fun _ => true
    date_fn := fun _ => "20250101_000000"
    time_fn := fun _ => 1000000 }

/-- A configuration with a retention window of 0 days. -/
def cfgRetZero : Config :=
  { container_name := "postgis"
    postgres_user := "postgres"
    backup_dir := "/opt/backup"
    databases := ["alpha"]
    retention_days := 0 }

/-- A state holding one old dump file. -/
def stOneOld : St :=
  { clock := 0, dirs := ["/opt/backup"], files := [⟨"alpha_old.dump", 0⟩],
    dispatched := [], log := [] }

/-- Witness for C3: a zero-retention real run deletes the old dump file
whose age (1000000 s) strictly exceeds the threshold. -/
theorem cleanup_retention_strict_gt_witness :
    (∀ g ∈ stOneOld.files, envAllOk.unlink_ok g.name = true) ∧
    (⟨"alpha_old.dump", 0⟩ : FileEntry) ∈ stOneOld.files ∧
    ((⟨"alpha_old.dump", 0⟩ : FileEntry) ∉
        (cleanupOldBackups envAllOk cfgRetZero false stOneOld).files ↔
      ((matchesDumpGlob "alpha_old.dump" = true) ∧
        envAllOk.time_fn stOneOld.clock - 0 > (cfgRetZero.retention_days : Int) * 86400)) :=
  ⟨by decide, by decide,
   (cleanup_retention_strict_gt envAllOk cfgRetZero stOneOld ⟨"alpha_old.dump", 0⟩
     (by decide) (by decide)).1⟩

/-- C7: the retention scan never touches a file whose name does not end
in `.dump`: the non-`.dump` files of the backup directory are exactly the
same, in the same order, after `cleanupOldBackups`, whatever the mode,
ages and deletion outcomes. -/
theorem cleanup_preserves_non_dump_files (env : Env) (cfg : Config) (d : Bool) (st : St) :
    (cleanupOldBackups env cfg d st).files.filter (fun g => !matchesDumpGlob g.name)
      = st.files.filter (fun g => !matchesDumpGlob g.name) := by
  rw [cleanupOldBackups_files]
  exact cleanupFiles_non_dump env d _ _ st.files

lemma St.ext' (a b : St) (h1 : a.clock = b.clock) (h2 : a.dirs = b.dirs)
    (h3 : a.files = b.files) (h4 : a.dispatched = b.dispatched)
    (h5 : a.log = b.log) : a = b := by
  cases a
  cases b
  simp_all

/-- A retention scan over a directory with no expired dump file changes
nothing but the clock event counter. -/
lemma cleanupOldBackups_no_expired (env : Env) (cfg : Config) (st : St)
    (h : ∀ g ∈ st.files,
      isExpiredDump (env.time_fn st.clock)
        ((cfg.retention_days : Int) * 24 * 60 * 60) g = false) :
    cleanupOldBackups env cfg false st = { st with clock := st.clock + 1 } := by
  have hstop := cleanupFiles_no_expired env (env.time_fn st.clock)
    ((cfg.retention_days : Int) * 24 * 60 * 60) st.files h
  apply St.ext'
  · rfl
  · rfl
  · show (cleanupFiles env false (env.time_fn st.clock)
      ((cfg.retention_days : Int) * 24 * 60 * 60) st.files).1 = st.files
    rw [hstop]
  · rfl
  · show st.log ++ (cleanupFiles env false (env.time_fn st.clock)
      ((cfg.retention_days : Int) * 24 * 60 * 60) st.files).2 = st.log
    rw [hstop]
    simp

/-- C8: with a fixed current time and successful deletions, a second
retention scan right after a first one deletes nothing and emits no log
line — it only consumes one clock event. -/
theorem cleanup_idempotent (env : Env) (cfg : Config) (st : St)
    (hall : ∀ g ∈ st.files, env.unlink_ok g.name = true)
    (htime : env.time_fn (st.clock + 1) = env.time_fn st.clock) :
    cleanupOldBackups env cfg false (cleanupOldBackups env cfg false st)
      = { cleanupOldBackups env cfg false st with
          clock := (cleanupOldBackups env cfg false st).clock + 1 } := by
  apply cleanupOldBackups_no_expired
  intro g hg
  have hclock : (cleanupOldBackups env cfg false st).clock = st.clock + 1 := rfl
  rw [hclock, htime]
  rw [cleanupOldBackups_files, cleanupFiles_all_ok env _ _ st.files hall] at hg
  have := (List.mem_filter.mp hg).2
  simpa using this

/-- Witness for C8: after deleting the old file once, a second scan with
the same frozen clock changes nothing but the clock event counter. -/
theorem cleanup_idempotent_witness :
    (∀ g ∈ stOneOld.files, envAllOk.unlink_ok g.name = true) ∧
    envAllOk.time_fn (stOneOld.clock + 1) = envAllOk.time_fn stOneOld.clock ∧
    cleanupOldBackups envAllOk cfgRetZero false
        (cleanupOldBackups envAllOk cfgRetZero false stOneOld)
      = { cleanupOldBackups envAllOk cfgRetZero false stOneOld with
          clock := (cleanupOldBackups envAllOk cfgRetZero false stOneOld).clock + 1 } :=
  ⟨by decide, rfl,
   cleanup_idempotent envAllOk cfgRetZero stOneOld (by decide) rfl⟩

/-! ### The retention scan is NOT per-file error-contained -/

lemma cleanupFiles_abort (env : Env) (now maxAge : Int) :
    ∀ (pre : List FileEntry) (f : FileEntry) (rest : List FileEntry),
      (∀ g ∈ pre, env.unlink_ok g.name = true) →
      isExpiredDump now maxAge f = true →
      env.unlink_ok f.name = false →
      cleanupFiles env false now maxAge (pre ++ f :: rest)
        = (pre.filter (fun g => !isExpiredDump now maxAge g) ++ f :: rest,
           (pre.filter (fun g => isExpiredDump now maxAge g)).map
               (fun g => LogEntry.deleted g.name)
             ++ [LogEntry.cleanupFailed]) := by
  intro pre
  induction pre with
  | nil =>
    intro f rest _ hf hu
    simp [cleanupFiles, hf, hu]
  | cons g pre ih =>
    intro f rest hall hf hu
    have hg := hall g (List.mem_cons_self g pre)
    have hpre : ∀ x ∈ pre, env.unlink_ok x.name = true :=
      fun x hx => hall x (List.mem_cons_of_mem g hx)
    cases h : isExpiredDump now maxAge g with
    | false => simp [cleanupFiles, h, ih f rest hpre hf hu, List.filter_cons]
    | true => simp [cleanupFiles, h, hg, ih f rest hpre hf hu, List.filter_cons]

/-- An environment where only the deletion of `aa.dump` fails. -/
def envAbort : Env :=
  { exec_ok := fun _ => true
    makedirs_ok := fun _ => true
    unlink_ok := fun n => !(n == "aa.dump")
    date_fn := fun _ => "20250101_000000"
    time_fn := fun _ => 1000000 }

/-- A directory holding three expired dump files, the middle one
undeletable under `envAbort`. -/
def stThreeOld : St :=
  { clock := 0, dirs := ["/opt/backup"],
    files := [⟨"cc.dump", 0⟩, ⟨"aa.dump", 0⟩, ⟨"bb.dump", 0⟩],
    dispatched := [], log := [] }

/-- C4 counterexample: `bb.dump` is expired and its deletion would
succeed, yet after the failed deletion of `aa.dump` it is never
attempted — it is still present and no deletion of it is logged.  File
processing is therefore not independent. -/
theorem cleanup_not_independent_counterexample :
    envAbort.unlink_ok "bb.dump" = true ∧
    isExpiredDump (envAbort.time_fn stThreeOld.clock)
      ((cfgRetZero.retention_days : Int) * 86400) ⟨"bb.dump", 0⟩ = true ∧
    (⟨"bb.dump", 0⟩ : FileEntry) ∈
      (cleanupOldBackups envAbort cfgRetZero false stThreeOld).files ∧
    LogEntry.deleted "bb.dump" ∉
      (cleanupOldBackups envAbort cfgRetZero false stThreeOld).log := by
  decide

/-- C4 amended: one failed deletion aborts the scan.  The `unlink` error
propagates to the function-level handler of `cleanup_old_backups`, which
logs it and returns: expired files before the failing one are deleted,
the failing file and every file after it are left untouched. -/
theorem cleanup_unlink_failure_aborts_scan (env : Env) (cfg : Config) (st : St)
    (pre : List FileEntry) (f : FileEntry) (rest : List FileEntry)
    (hsplit : st.files = pre ++ f :: rest)
    (hpre : ∀ g ∈ pre, env.unlink_ok g.name = true)
    (hf : isExpiredDump (env.time_fn st.clock)
      ((cfg.retention_days : Int) * 24 * 60 * 60) f = true)
    (hu : env.unlink_ok f.name = false) :
    (cleanupOldBackups env cfg false st).files
      = pre.filter (fun g => !isExpiredDump (env.time_fn st.clock)
          ((cfg.retention_days : Int) * 24 * 60 * 60) g) ++ f :: rest ∧
    LogEntry.cleanupFailed ∈ (cleanupOldBackups env cfg false st).log := by
  have h := cleanupFiles_abort env (env.time_fn st.clock)
    ((cfg.retention_days : Int) * 24 * 60 * 60) pre f rest hpre hf hu
  constructor
  · rw [cleanupOldBackups_files, hsplit, h]
  · show LogEntry.cleanupFailed ∈
      st.log ++ (cleanupFiles env false (env.time_fn st.clock)
        ((cfg.retention_days : Int) * 24 * 60 * 60) st.files).2
    rw [hsplit, h]
    simp

/-- Witness for the amended C4 at the concrete three-file directory:
`cc.dump` is deleted, the failing `aa.dump` and the untouched `bb.dump`
remain, and the cleanup failure is logged. -/
theorem cleanup_unlink_failure_aborts_scan_witness :
    stThreeOld.files
      = [⟨"cc.dump", 0⟩] ++ (⟨"aa.dump", 0⟩ : FileEntry) :: [⟨"bb.dump", 0⟩] ∧
    (∀ g ∈ [(⟨"cc.dump", 0⟩ : FileEntry)], envAbort.unlink_ok g.name = true) ∧
    isExpiredDump (envAbort.time_fn stThreeOld.clock)
      ((cfgRetZero.retention_days : Int) * 24 * 60 * 60) ⟨"aa.dump", 0⟩ = true ∧
    envAbort.unlink_ok "aa.dump" = false ∧
    ((cleanupOldBackups envAbort cfgRetZero false stThreeOld).files
        = List.filter (fun g => !isExpiredDump (envAbort.time_fn stThreeOld.clock)
            ((cfgRetZero.retention_days : Int) * 24 * 60 * 60) g) [⟨"cc.dump", 0⟩]
          ++ (⟨"aa.dump", 0⟩ : FileEntry) :: [⟨"bb.dump", 0⟩] ∧
      LogEntry.cleanupFailed ∈
        (cleanupOldBackups envAbort cfgRetZero false stThreeOld).log) :=
  ⟨rfl, by decide, by decide, by decide,
   cleanup_unlink_failure_aborts_scan envAbort cfgRetZero stThreeOld
     [⟨"cc.dump", 0⟩] ⟨"aa.dump", 0⟩ [⟨"bb.dump", 0⟩]
     rfl (by decide) (by decide) (by decide)⟩

/-! ### Dry-run behavior of the whole run -/

/-- When directory creation succeeds, `run` reaches its loop and cleanup:
its state is cleanup applied after the database loop, started from the
input state with the start line logged (and possibly the backup directory
added), and the returned boolean is `true`. -/
lemma run_ok_state (env : Env) (cfg : Config) (d : Bool) (st : St)
    (hdir : dirCreationOk env cfg st) :
    ∃ stMk : St, stMk.clock = st.clock ∧ stMk.files = st.files ∧
      stMk.dispatched = st.dispatched ∧
      stMk.log = st.log ++ [LogEntry.startMsg d] ∧
      (run env cfg d st).1
        = { cleanupOldBackups env cfg d (runBackups env cfg d cfg.databases stMk) with
            log := (cleanupOldBackups env cfg d
                (runBackups env cfg d cfg.databases stMk)).log
              ++ [LogEntry.doneMsg d] } ∧
      (run env cfg d st).2 = true := by
  unfold run makedirs
  by_cases h1 : cfg.backup_dir ∈ st.dirs
  · refine ⟨{ st with log := st.log ++ [LogEntry.startMsg d] },
      rfl, rfl, rfl, rfl, ?_, ?_⟩ <;> simp [h1]
  · have h2 : env.makedirs_ok cfg.backup_dir = true := by
      rcases hdir with h | h
      · exact absurd h h1
      · exact h
    refine ⟨{ st with log := st.log ++ [LogEntry.startMsg d],
                      dirs := st.dirs ++ [cfg.backup_dir] },
      rfl, rfl, rfl, rfl, ?_, ?_⟩ <;> simp [h1, h2]

/-- The dry database loop leaves files, dispatched commands and
directories unchanged and advances the clock once per database. -/
lemma runBackups_dry_frame (env : Env) (cfg : Config) :
    ∀ (dbs : List String) (st : St),
      (runBackups env cfg true dbs st).files = st.files ∧
      (runBackups env cfg true dbs st).dispatched = st.dispatched ∧
      (runBackups env cfg true dbs st).dirs = st.dirs ∧
      (runBackups env cfg true dbs st).clock = st.clock + dbs.length := by
  intro dbs
  induction dbs with
  | nil => intro st; simp [runBackups_nil]
  | cons db rest ih =>
    intro st
    rw [runBackups_cons, backupDatabase_dry]
    refine ⟨(ih _).1, (ih _).2.1, (ih _).2.2.1, ?_⟩
    rw [(ih _).2.2.2]
    simp
    omega

lemma cleanupOldBackups_dry_files (env : Env) (cfg : Config) (st : St) :
    (cleanupOldBackups env cfg true st).files = st.files := by
  rw [cleanupOldBackups_files, cleanupFiles_dry]

/-- In a dry run, `run` dispatches no external command, creates no dump
file and deletes no file (shared core of the dry-run claims). -/
lemma run_dry_frame (env : Env) (cfg : Config) (st : St) :
    (run env cfg true st).1.dispatched = st.dispatched ∧
    (run env cfg true st).1.files = st.files := by
  by_cases hdir : dirCreationOk env cfg st
  · obtain ⟨stMk, _, hf, hd, _, hrun, _⟩ := run_ok_state env cfg true st hdir
    rw [hrun]
    constructor
    · show (cleanupOldBackups env cfg true
        (runBackups env cfg true cfg.databases stMk)).dispatched = st.dispatched
      rw [cleanupOldBackups_dispatched, (runBackups_dry_frame env cfg cfg.databases stMk).2.1, hd]
    · show (cleanupOldBackups env cfg true
        (runBackups env cfg true cfg.databases stMk)).files = st.files
      rw [cleanupOldBackups_dry_files, (runBackups_dry_frame env cfg cfg.databases stMk).1, hf]
  · unfold run makedirs
    unfold dirCreationOk at hdir
    push_neg at hdir
    simp [hdir.1, hdir.2]

/-- C5 counterexample: a dry run is not free of filesystem mutation — the
`os.makedirs` call inside `run` executes regardless of `dry_run`, so a
dry run on a missing backup directory creates it. -/
theorem dry_run_creates_directory_counterexample :
    cfgSample.backup_dir ∉ stEmpty.dirs ∧
    cfgSample.backup_dir ∈ (run envAllOk cfgSample true stEmpty).1.dirs := by
  decide

/-- C5 amended: a dry run dispatches no external command and neither
creates nor deletes any file in the backup directory; however it does
run directory creation for `backup_dir` unconditionally, so it can
create that directory. -/
theorem dry_run_no_dispatch_no_file_change (env : Env) (cfg : Config) (st : St) :
    (run env cfg true st).1.dispatched = st.dispatched ∧
    (run env cfg true st).1.files = st.files :=
  run_dry_frame env cfg st

/-- The would-run command lines among the log entries. -/
def dryCmds (l : List LogEntry) : List (List String) :=
  l.filterMap (fun e =>
    match e with
    | LogEntry.dryCmd c => some c
    | _ => none)

/-- The dump, fetch and remote-cleanup commands of each database in list
order, with one clock event per database. -/
def expectedDryCmds (env : Env) (cfg : Config) : List String → Nat → List (List String)
  | [], _ => []
  | db :: rest, k =>
      dumpCmd env cfg db k :: cpCmd env cfg db k :: rmCmd env cfg db k ::
        expectedDryCmds env cfg rest (k + 1)

lemma dryCmds_append (l m : List LogEntry) :
    dryCmds (l ++ m) = dryCmds l ++ dryCmds m := by
  simp [dryCmds]

lemma expectedDryCmds_length (env : Env) (cfg : Config) :
    ∀ (dbs : List String) (k : Nat),
      (expectedDryCmds env cfg dbs k).length = 3 * dbs.length := by
  intro dbs
  induction dbs with
  | nil => intro k; rfl
  | cons db rest ih =>
    intro k
    simp [expectedDryCmds, ih]
    omega

lemma runBackups_dry_log (env : Env) (cfg : Config) :
    ∀ (dbs : List String) (st : St),
      dryCmds (runBackups env cfg true dbs st).log
        = dryCmds st.log ++ expectedDryCmds env cfg dbs st.clock := by
  intro dbs
  induction dbs with
  | nil => intro st; simp [runBackups_nil, expectedDryCmds]
  | cons db rest ih =>
    intro st
    rw [runBackups_cons, backupDatabase_dry, ih]
    simp [dryCmds_append, dryCmds, expectedDryCmds]

lemma cleanupFiles_dry_log (env : Env) (now maxAge : Int) :
    ∀ l : List FileEntry, dryCmds (cleanupFiles env true now maxAge l).2 = [] := by
  intro l
  induction l with
  | nil => rfl
  | cons f rest ih =>
    cases h : isExpiredDump now maxAge f with
    | false => simp [cleanupFiles, h, ih]
    | true => simpa [cleanupFiles, h, dryCmds] using ih

lemma cleanupOldBackups_dry_log (env : Env) (cfg : Config) (st : St) :
    dryCmds (cleanupOldBackups env cfg true st).log = dryCmds st.log := by
  show dryCmds (st.log ++ (cleanupFiles env true (env.time_fn st.clock)
    ((cfg.retention_days : Int) * 24 * 60 * 60) st.files).2) = dryCmds st.log
  rw [dryCmds_append, cleanupFiles_dry_log]
  simp

/-- C6: a successful dry run logs exactly the `3 × N` would-run command
lines — dump, fetch, remote cleanup for each of the `N` configured
databases, in database-list order — and deletes nothing. -/
theorem dry_run_logs_three_commands_per_db (env : Env) (cfg : Config) (st : St)
    (hdir : dirCreationOk env cfg st) :
    dryCmds (run env cfg true st).1.log
      = dryCmds st.log ++ expectedDryCmds env cfg cfg.databases st.clock ∧
    (expectedDryCmds env cfg cfg.databases st.clock).length = 3 * cfg.databases.length ∧
    (run env cfg true st).1.files = st.files := by
  obtain ⟨stMk, hc, _, _, hl, hrun, _⟩ := run_ok_state env cfg true st hdir
  refine ⟨?_, expectedDryCmds_length env cfg cfg.databases st.clock,
    (run_dry_frame env cfg st).2⟩
  rw [hrun]
  show dryCmds ((cleanupOldBackups env cfg true
      (runBackups env cfg true cfg.databases stMk)).log ++ [LogEntry.doneMsg true])
    = dryCmds st.log ++ expectedDryCmds env cfg cfg.databases st.clock
  rw [dryCmds_append, cleanupOldBackups_dry_log, runBackups_dry_log, hl,
    dryCmds_append, hc]
  simp [dryCmds]

/-- Witness for C6: a dry run over the two-database sample configuration
logs exactly six would-run command lines and leaves the files alone. -/
theorem dry_run_logs_three_commands_per_db_witness :
    dirCreationOk envAllOk cfgSample stEmpty ∧
    (expectedDryCmds envAllOk cfgSample cfgSample.databases stEmpty.clock).length
      = 3 * cfgSample.databases.length ∧
    dryCmds (run envAllOk cfgSample true stEmpty).1.log
      = dryCmds stEmpty.log
        ++ expectedDryCmds envAllOk cfgSample cfgSample.databases stEmpty.clock :=
  ⟨by decide,
   (dry_run_logs_three_commands_per_db envAllOk cfgSample stEmpty (by decide)).2.1,
   (dry_run_logs_three_commands_per_db envAllOk cfgSample stEmpty (by decide)).1⟩

/-! ### Construction and the empty-list run -/

/-- C9: the constructor is not error-contained.  `__init__` runs its
`os.makedirs` calls outside any try block: when creating the backup
directory fails, `initBackup` propagates the error to the caller instead
of logging it or returning a failure value — unlike `run`,
`backupDatabase` and `cleanupOldBackups`, which are total here because
the source catches their exceptions. -/
theorem initBackup_propagates_failure (env : Env) (cfg : Config) (st : St)
    (h : ¬ dirCreationOk env cfg st) :
    initBackup env cfg st = Except.error () := by
  unfold dirCreationOk at h
  push_neg at h
  unfold initBackup makedirs
  simp [h.1, h.2]

/-- An environment whose filesystem refuses every directory creation. -/
def envNoFs : Env :=
  { envAllOk with makedirs_ok := fun _ => false }

/-- Witness for C9: with directory creation denied and the directory
missing, construction raises. -/
theorem initBackup_propagates_failure_witness :
    ¬ dirCreationOk envNoFs cfgSample stEmpty ∧
    initBackup envNoFs cfgSample stEmpty = Except.error () :=
  ⟨by decide, initBackup_propagates_failure envNoFs cfgSample stEmpty (by decide)⟩

/-- C10: with an empty databases list and directory creation succeeding,
a real run dispatches no command at all, still performs the retention
scan over the backup directory, and returns `true`. -/
theorem run_empty_databases (env : Env) (cfg : Config) (st : St)
    (hempty : cfg.databases = []) (hdir : dirCreationOk env cfg st) :
    (run env cfg false st).2 = true ∧
    (run env cfg false st).1.dispatched = st.dispatched ∧
    (run env cfg false st).1.files
      = (cleanupFiles env false (env.time_fn st.clock)
          ((cfg.retention_days : Int) * 24 * 60 * 60) st.files).1 := by
  obtain ⟨stMk, hc, hf, hd, _, hrun, hres⟩ := run_ok_state env cfg false st hdir
  refine ⟨hres, ?_, ?_⟩
  · rw [hrun]
    show (cleanupOldBackups env cfg false
      (runBackups env cfg false cfg.databases stMk)).dispatched = st.dispatched
    rw [cleanupOldBackups_dispatched, hempty, runBackups_nil, hd]
  · rw [hrun]
    show (cleanupOldBackups env cfg false
      (runBackups env cfg false cfg.databases stMk)).files = _
    rw [hempty, runBackups_nil, cleanupOldBackups_files, hc, hf]

/-- The sample configuration with no database configured. -/
def cfgNoDb : Config :=
  { cfgSample with databases := [] }

/-- Witness for C10: an empty-list real run over a directory holding one
expired file returns `true`, dispatches nothing, and its retention scan
still runs over the directory. -/
theorem run_empty_databases_witness :
    cfgNoDb.databases = [] ∧
    dirCreationOk envAllOk cfgNoDb stOneOld ∧
    ((run envAllOk cfgNoDb false stOneOld).2 = true ∧
      (run envAllOk cfgNoDb false stOneOld).1.dispatched = stOneOld.dispatched ∧
      (run envAllOk cfgNoDb false stOneOld).1.files
        = (cleanupFiles envAllOk false (envAllOk.time_fn stOneOld.clock)
            ((cfgNoDb.retention_days : Int) * 24 * 60 * 60) stOneOld.files).1) :=
  ⟨rfl, by decide, run_empty_databases envAllOk cfgNoDb stOneOld rfl (by decide)⟩

end PostgresBackup
